import Mathlib

/-!
Verification of `ble_scan.py`, a small CLI that scans for Bluetooth LE
devices (via the external `bleak` library), optionally filters them by a
case-insensitive name substring, prints human-readable lines and/or a
JSON rendering, and returns an exit code.

Shallow embedding: the external effects are turned into explicit data.
* The availability of the `bleak` import is a boolean `bleakAvailable`.
* The external `BleakScanner.discover` call is an input
  `discover : Except String (List Device)` (either the discovered device
  list or the exception it raised).
* Printing is modelled by accumulating the printed lines in a list.
* A Python exception is an `Except.error` carrying the message string.
* Python values reachable from a device's open metadata mapping are
  modelled by the inductive `PyValue`; `json.dumps` is modelled by
  `jsonDumps`, which fails (raises `TypeError`) on non-serializable
  values such as `bytes`, exactly as the Python standard library does.
-/

/-- A dynamically-typed Python value, as can appear in the open
`details` metadata mapping of a device. `bytes` is the representative
non-JSON-serializable value (bleak manufacturer data is `bytes`). -/
inductive PyValue where
  | null : PyValue
  | bool (b : Bool) : PyValue
  | int (i : Int) : PyValue
  | str (s : String) : PyValue
  | bytes (bs : List Nat) : PyValue
  | list (xs : List PyValue) : PyValue
  | dict (kvs : List (String × PyValue)) : PyValue
  deriving Repr

/-- Python truthiness of a `PyValue` (`bool(v)`): `None`, `False`, `0`,
empty string/bytes/list/dict are falsy. -/
def PyValue.truthy : PyValue → Bool
  | .null => false
  | .bool b => b
  | .int i => i != 0
  | .str s => s != ""
  | .bytes bs => !bs.isEmpty
  | .list xs => !xs.isEmpty
  | .dict kvs => !kvs.isEmpty

/-- A raw device object as returned by the external BLE discovery call.
For `name` and `rssi`, `none` models both a missing attribute and a
Python `None` value; for `metadata` and `details`, `none` models a
missing attribute (the source reads them with `getattr(d, _, {})`). -/
structure Device where
  address : String
  name : Option String
  rssi : Option Int
  metadata : Option PyValue
  details : Option PyValue
  deriving Repr

/-- One element of the `formatted` list built by `do_scan`: a dict with
exactly the keys `address`, `name`, `rssi`, `details`. -/
structure Item where
  address : String
  name : String
  rssi : Option Int
  details : PyValue
  deriving Repr

/-- Python truthiness of an optional string (`if filter_name:`,
`if d.name ...`): `None` and `""` are falsy. -/
def optStrTruthy : Option String → Bool
  | none => false
  | some s => s != ""

/-- Python `s.lower()`: fold every character to lower case (modelled
per character with `Char.toLower`). -/
def pyLower (s : String) : String :=
  String.mk (s.data.map Char.toLower)

/-- Python `needle in hay` on the `.lower()`-folded strings, i.e. the
test `filter_name.lower() in d.name.lower()` from the source
(`in` on strings is contiguous-substring containment). -/
def lowerIn (needle hay : String) : Bool :=
  decide (List.IsInfix (pyLower needle).data (pyLower hay).data)

/-- The per-device filter test `d.name and filter_name.lower() in d.name.lower()`. -/
def filterPred (filter_name : String) (d : Device) : Bool :=
  optStrTruthy d.name && lowerIn filter_name (d.name.getD "")

/-- The filtering step of `do_scan`:
`if filter_name: devices = [d for d in devices if d.name and filter_name.lower() in d.name.lower()]`. -/
def filterStage (filter_name : Option String) (devices : List Device) : List Device :=
  if optStrTruthy filter_name then
    devices.filter (filterPred (filter_name.getD ""))
  else
    devices

/-- Python `s.ljust`-style minimum-width left justification, as done by
the format specifier `{x:<n}`: pad with spaces on the right up to width
`n`, never truncate. -/
def ljust (s : String) (n : Nat) : String :=
  s ++ String.mk (List.replicate (n - s.length) ' ')

/-- Python `str` of the `rssi` value (`None` prints as "None"). -/
def pyStrOptInt : Option Int → String
  | none => "None"
  | some i => toString i

/-- The human-readable device line printed by `do_scan`:
`f"Address: {item['address']:<20} Name: {item['name']:<30} RSSI: {item['rssi']}"`. -/
def formatLine (it : Item) : String :=
  "Address: " ++ ljust it.address 20 ++ " Name: " ++ ljust it.name 30
    ++ " RSSI: " ++ pyStrOptInt it.rssi

/-- `getattr(d, attr, {})`: a missing attribute defaults to the empty dict. -/
def pyGetattr (v : Option PyValue) : PyValue :=
  v.getD (PyValue.dict [])

/-- Python `a or b`: `a` if truthy, else `b`. -/
def pyOr (a b : PyValue) : PyValue :=
  if a.truthy then a else b

/-- The item dict built by `do_scan` for one device:
address, `d.name or ""`, `getattr(d, "rssi", None)`, and
`getattr(d, "metadata", {}) or getattr(d, "details", {})`. -/
def mkItem (d : Device) : Item :=
  { address := d.address
    name := d.name.getD ""
    rssi := d.rssi
    details := pyOr (pyGetattr d.metadata) (pyGetattr d.details) }

/-- The progress line `f"Scanning for BLE devices for {timeout} seconds..."`.
The timeout is any value with a string rendering (a float in the source). -/
def progressLine {α : Type} [ToString α] (timeout : α) : String :=
  "Scanning for BLE devices for " ++ toString timeout ++ " seconds..."

/-- The body of `async def do_scan(timeout, filter_name)`.

Inputs beyond the two Python parameters make the external world explicit:
`bleakAvailable` is whether the `bleak` import succeeded, and `discover`
is the outcome of `await BleakScanner.discover(timeout=timeout)`.

Returns the list of lines printed by `do_scan` (in order), paired with
either the returned list of items or the message of the exception that
escaped `do_scan`. -/
def do_scan {α : Type} [ToString α] (timeout : α) (filter_name : Option String)
    (bleakAvailable : Bool) (discover : Except String (List Device)) :
    List String × Except String (List Item) :=
  if !bleakAvailable then
    ([], Except.error "bleak is not installed. Run: pip install bleak")
  else
    match discover with
    | Except.error e => ([progressLine timeout], Except.error e)
    | Except.ok rawDevices =>
      let devices := filterStage filter_name rawDevices
      if devices.isEmpty then
        ([progressLine timeout, "No devices found."], Except.ok [])
      else
        let items := devices.map mkItem
        (progressLine timeout :: items.map formatLine, Except.ok items)

/-- The whitespace prefix produced by `json.dumps(..., indent=2)` at
nesting level `lvl`. -/
def jsonIndent (lvl : Nat) : String :=
  String.mk (List.replicate (2 * lvl) ' ')

/-- JSON string escaping for one character (the escapes exercised by
this program's data; `\uXXXX` escaping of other control characters is
not modelled). -/
def jsonEscapeChar (c : Char) : String :=
  if c = '"' then "\\\""
  else if c = '\\' then "\\\\"
  else if c = '\n' then "\\n"
  else if c = '\t' then "\\t"
  else if c = '\r' then "\\r"
  else String.mk [c]

/-- JSON string escaping. -/
def jsonEscape (s : String) : String :=
  String.join (s.toList.map jsonEscapeChar)

mutual

/-- `json.dumps(v, indent=2)` at nesting level `lvl`: a serializable
value renders to text, a non-serializable value (bytes) raises
`TypeError`, which propagates out of any enclosing list or dict. -/
def jsonDumpsVal (lvl : Nat) : PyValue → Except String String
  | PyValue.null => Except.ok "null"
  | PyValue.bool b => Except.ok (if b then "true" else "false")
  | PyValue.int i => Except.ok (toString i)
  | PyValue.str s => Except.ok ("\"" ++ jsonEscape s ++ "\"")
  | PyValue.bytes _ => Except.error "Object of type bytes is not JSON serializable"
  | PyValue.list xs =>
    (jsonDumpsList (lvl + 1) xs).map (fun parts =>
      if parts.isEmpty then "[]"
      else "[\n"
        ++ String.intercalate ",\n" (parts.map (fun p => jsonIndent (lvl + 1) ++ p))
        ++ "\n" ++ jsonIndent lvl ++ "]")
  | PyValue.dict kvs =>
    (jsonDumpsDict (lvl + 1) kvs).map (fun parts =>
      if parts.isEmpty then "\x7b\x7d"
      else "\x7b\n"
        ++ String.intercalate ",\n" (parts.map (fun p => jsonIndent (lvl + 1) ++ p))
        ++ "\n" ++ jsonIndent lvl ++ "\x7d")

/-- Serialize the elements of a JSON array, left to right, propagating
the first failure. -/
def jsonDumpsList (lvl : Nat) : List PyValue → Except String (List String)
  | [] => Except.ok []
  | x :: xs => do
    let s ← jsonDumpsVal lvl x
    let rest ← jsonDumpsList lvl xs
    Except.ok (s :: rest)

/-- Serialize the `"key": value` entries of a JSON object, in insertion
order, propagating the first failure. -/
def jsonDumpsDict (lvl : Nat) : List (String × PyValue) → Except String (List String)
  | [] => Except.ok []
  | (k, v) :: kvs => do
    let s ← jsonDumpsVal lvl v
    let rest ← jsonDumpsDict lvl kvs
    Except.ok (("\"" ++ jsonEscape k ++ "\": " ++ s) :: rest)

end

/-- The Python value that `do_scan`'s returned item dict denotes (keys
in insertion order: address, name, rssi, details). -/
def itemToPy (it : Item) : PyValue :=
  PyValue.dict
    [ ("address", PyValue.str it.address)
    , ("name", PyValue.str it.name)
    , ("rssi", match it.rssi with | none => PyValue.null | some i => PyValue.int i)
    , ("details", it.details) ]

/-- `json.dumps(results, indent=2)` for the list returned by `do_scan`. -/
def jsonDumps (results : List Item) : Except String String :=
  jsonDumpsVal 0 (PyValue.list (results.map itemToPy))

/-- The body of `main()`, after argument parsing.

`timeout`, `filter_name` and `jsonFlag` are the parsed arguments;
`bleakAvailable` and `discover` make the external world explicit as in
`do_scan`. Returns the printed lines paired with either the return code
of `main` (`Except.ok`) or the message of an exception that escaped
`main` uncaught (`Except.error`) — note the `try` block in the source
covers only the `asyncio.run(do_scan(...))` call, not the JSON printing. -/
def main' {α : Type} [ToString α] (timeout : α) (filter_name : Option String)
    (jsonFlag : Bool) (bleakAvailable : Bool) (discover : Except String (List Device)) :
    List String × Except String Nat :=
  match do_scan timeout filter_name bleakAvailable discover with
  | (out, Except.error e) => (out ++ ["Error during scan: " ++ e], Except.ok 2)
  | (out, Except.ok results) =>
    if jsonFlag then
      match jsonDumps results with
      | Except.ok s => (out ++ [s], Except.ok 0)
      | Except.error e => (out, Except.error e)
    else (out, Except.ok 0)

/-- A device advertising the name "TempSensor" (from the spec's filter scenario). -/
def devTemp : Device :=
  { address := "AA:AA:AA:AA:AA:01", name := some "TempSensor", rssi := some (-55)
    metadata := none, details := none }

/-- A device advertising the name "Light" (from the spec's filter scenario). -/
def devLight : Device :=
  { address := "AA:AA:AA:AA:AA:02", name := some "Light", rssi := some (-60)
    metadata := none, details := none }

/-- A device whose `metadata` attribute holds a dict containing `bytes`
manufacturer data, as bleak backends produce. -/
def devMfg : Device :=
  { address := "AA:BB:CC:DD:EE:FF", name := some "Widget", rssi := some (-70)
    metadata := some (PyValue.dict [("manufacturer_data", PyValue.bytes [76, 0])])
    details := none }

/-- A device with no `metadata` attribute and a raw `bytes` value in its
`details` attribute. -/
def devDet : Device :=
  { address := "22:33:44:55:66:77", name := some "Gadget", rssi := some (-40)
    metadata := none, details := some (PyValue.bytes [7]) }

/-- A device that advertised no name and exposes neither a `metadata`
nor a `details` attribute. -/
def devNoName : Device :=
  { address := "11:22:33:44:55:66", name := none, rssi := some (-70)
    metadata := none, details := none }

/-- Helper: `ljust` appends only spaces and pads up to the width. -/
theorem ljust_spec (s : String) (n : Nat) :
    ∃ pad : String, ljust s n = s ++ pad
      ∧ pad.toList.all (fun c => c == ' ') = true
      ∧ (ljust s n).length = max s.length n := by
  refine ⟨String.mk (List.replicate (n - s.length) ' '), rfl, ?_, ?_⟩
  · simp [String.toList, List.all_eq_true, List.mem_replicate]
  · have h1 : (ljust s n).length = s.length + (n - s.length) := by
      simp [ljust, String.length_append, String.length_mk]
    rw [h1]
    rcases Nat.le_total s.length n with h2 | h2
    · rw [max_eq_right h2]
      omega
    · rw [max_eq_left h2]
      omega

/-- C5: if the `bleak` binding is unavailable, `do_scan` raises the
dependency error before printing anything or attempting any scan (the
discovery outcome is irrelevant), and returns no partial results. -/
theorem C5_dependency_unavailable {α : Type} [ToString α] (timeout : α)
    (fn : Option String) (disc : Except String (List Device)) :
    do_scan timeout fn false disc
      = ([], Except.error "bleak is not installed. Run: pip install bleak") := rfl

/-- C4: with the filter substring absent (`none`) or empty (`""`) the
filter stage is the identity, and for any substring the surviving
records form a sublist of the input (original discovery order kept, no
re-sorting). -/
theorem C4_identity_and_stability (devices : List Device) :
    filterStage none devices = devices
    ∧ filterStage (some "") devices = devices
    ∧ ∀ fn : Option String, (filterStage fn devices).Sublist devices := by
  refine ⟨rfl, rfl, ?_⟩
  intro fn
  rw [filterStage]
  by_cases h : optStrTruthy fn = true
  · rw [if_pos h]
    exact List.filter_sublist devices
  · rw [if_neg h]

/-- C10: the program is deterministic in the external scan outcome: two
runs with equal parsed arguments and equal discovery outcomes produce
equal printed output, return value and exit status, and serializing the
same record list twice yields byte-identical JSON text. -/
theorem C10_deterministic (t1 t2 : Nat) (fn1 fn2 : Option String)
    (j1 j2 b1 b2 : Bool) (d1 d2 : Except String (List Device))
    (r1 r2 : List Item)
    (ht : t1 = t2) (hf : fn1 = fn2) (hj : j1 = j2) (hb : b1 = b2)
    (hd : d1 = d2) (hr : r1 = r2) :
    main' t1 fn1 j1 b1 d1 = main' t2 fn2 j2 b2 d2
    ∧ jsonDumps r1 = jsonDumps r2 := by
  subst ht; subst hf; subst hj; subst hb; subst hd; subst hr
  exact ⟨rfl, rfl⟩

/-- Witness for C10 at concrete inputs. -/
theorem C10_deterministic_witness :
    main' 5 (some "sensor") true true (Except.ok [devTemp, devLight])
      = main' 5 (some "sensor") true true (Except.ok [devTemp, devLight])
    ∧ jsonDumps [mkItem devTemp] = jsonDumps [mkItem devTemp] :=
  C10_deterministic 5 5 (some "sensor") (some "sensor") true true true true
    (Except.ok [devTemp, devLight]) (Except.ok [devTemp, devLight])
    [mkItem devTemp] [mkItem devTemp] rfl rfl rfl rfl rfl rfl

/-- C7: in every printed device line the address field is the full
address left-justified in at least 20 characters and the name field the
full name left-justified in at least 30 characters; a string longer than
its width is printed whole (only the space padding is skipped). -/
theorem C7_field_padding (it : Item) :
    (∃ pad : String, ljust it.address 20 = it.address ++ pad
      ∧ pad.toList.all (fun c => c == ' ') = true
      ∧ (ljust it.address 20).length = max it.address.length 20)
    ∧ (∃ pad : String, ljust it.name 30 = it.name ++ pad
      ∧ pad.toList.all (fun c => c == ' ') = true
      ∧ (ljust it.name 30).length = max it.name.length 30)
    ∧ 20 ≤ (ljust it.address 20).length
    ∧ 30 ≤ (ljust it.name 30).length
    ∧ formatLine it = "Address: " ++ ljust it.address 20 ++ " Name: "
        ++ ljust it.name 30 ++ " RSSI: " ++ pyStrOptInt it.rssi := by
  obtain ⟨p1, hp1, ha1, hl1⟩ := ljust_spec it.address 20
  obtain ⟨p2, hp2, ha2, hl2⟩ := ljust_spec it.name 30
  refine ⟨⟨p1, hp1, ha1, hl1⟩, ⟨p2, hp2, ha2, hl2⟩, ?_, ?_, rfl⟩
  · rw [hl1]
    exact le_max_right _ _
  · rw [hl2]
    exact le_max_right _ _

/-- C3: with a non-empty filter substring `S`, a record survives the
filter stage exactly when it occurred in the input, advertised a
non-empty name, and that name contains `S` after both sides are folded
to lower case. -/
theorem C3_filter_membership (S : String) (hS : S ≠ "")
    (devices : List Device) (d : Device) :
    d ∈ filterStage (some S) devices
      ↔ d ∈ devices ∧ ∃ s : String, d.name = some s ∧ s ≠ ""
          ∧ List.IsInfix (pyLower S).data (pyLower s).data := by
  have ht : optStrTruthy (some S) = true := by
    simp [optStrTruthy, hS]
  rw [filterStage, if_pos ht, List.mem_filter]
  constructor
  · rintro ⟨hmem, hpred⟩
    refine ⟨hmem, ?_⟩
    rw [filterPred, Bool.and_eq_true] at hpred
    obtain ⟨hname, hin⟩ := hpred
    cases hn : d.name with
    | none =>
      rw [hn] at hname
      exact absurd hname (by simp [optStrTruthy])
    | some s =>
      refine ⟨s, rfl, ?_, ?_⟩
      · rw [hn] at hname
        simpa [optStrTruthy] using hname
      · rw [hn] at hin
        simpa [lowerIn, Option.getD] using hin
  · rintro ⟨hmem, s, hn, hne, hinf⟩
    refine ⟨hmem, ?_⟩
    rw [filterPred, Bool.and_eq_true, hn]
    exact ⟨by simpa [optStrTruthy] using hne,
      by simpa [lowerIn, Option.getD] using hinf⟩

/-- Witness for C3 at the spec's scenario: filtering on "sensor" keeps
"TempSensor". -/
theorem C3_filter_membership_witness :
    ("sensor" : String) ≠ ""
    ∧ (devTemp ∈ filterStage (some "sensor") [devTemp, devLight]
        ↔ devTemp ∈ [devTemp, devLight]
          ∧ ∃ s : String, devTemp.name = some s ∧ s ≠ ""
            ∧ List.IsInfix (pyLower "sensor").data (pyLower s).data) :=
  ⟨by decide, C3_filter_membership "sensor" (by decide) [devTemp, devLight] devTemp⟩

/-- C9: with the scan succeeding, `do_scan` always returns a list (the
empty list when nothing survives filtering, else one item per surviving
device in discovery order, built by `mkItem` with exactly the keys
address/name/rssi/details); a missing advertised name is normalized to
`""` and `details` defaults to the empty mapping when the device exposes
neither a `metadata` nor a `details` attribute. -/
theorem C9_return_shape (t : Nat) (fn : Option String) (devices : List Device) :
    (do_scan t fn true (Except.ok devices)).2
      = Except.ok ((filterStage fn devices).map mkItem)
    ∧ ∀ d : Device, (mkItem d).name = d.name.getD ""
      ∧ (d.name = none → (mkItem d).name = "")
      ∧ (d.metadata = none → d.details = none → (mkItem d).details = PyValue.dict []) := by
  constructor
  · cases h : (filterStage fn devices).isEmpty with
    | true =>
      have h0 : filterStage fn devices = [] := by
        simpa using h
      simp [do_scan, h, h0]
    | false => simp [do_scan, h]
  · intro d
    refine ⟨rfl, ?_, ?_⟩
    · intro hn
      simp [mkItem, hn]
    · intro hm hd
      simp [mkItem, hm, hd, pyGetattr, pyOr, PyValue.truthy]

/-- Witness for C9 at a device with no advertised name and neither
metadata nor details attribute. -/
theorem C9_return_shape_witness :
    (do_scan 5 none true (Except.ok [devNoName])).2
      = Except.ok ((filterStage none [devNoName]).map mkItem)
    ∧ (mkItem devNoName).name = ""
    ∧ (mkItem devNoName).details = PyValue.dict [] :=
  ⟨(C9_return_shape 5 none [devNoName]).1,
   ((C9_return_shape 5 none [devNoName]).2 devNoName).2.1 rfl,
   ((C9_return_shape 5 none [devNoName]).2 devNoName).2.2 rfl rfl⟩

/-- Helper: strings with different first characters are different. -/
theorem ne_of_head (s t : String) (h : s.data.head? ≠ t.data.head?) : s ≠ t :=
  fun he => h (by rw [he])

/-- Helper: an append keeps the first character of its left operand. -/
theorem head_append_of_head (a b : String) (c : Char)
    (h : a.data.head? = some c) : (a ++ b).data.head? = some c := by
  rw [String.data_append]
  cases ha : a.data with
  | nil =>
    rw [ha] at h
    cases h
  | cons x xs =>
    rw [ha] at h
    simpa using h

/-- Helper: the progress line starts with 'S'. -/
theorem progress_head {α : Type} [ToString α] (t : α) :
    (progressLine t).data.head? = some 'S' := by
  rw [progressLine]
  exact head_append_of_head _ _ _ (head_append_of_head _ _ _ rfl)

/-- Helper: every human-readable device line starts with 'A'. -/
theorem formatLine_head (it : Item) :
    (formatLine it).data.head? = some 'A' := by
  rw [formatLine]
  exact head_append_of_head _ _ _ (head_append_of_head _ _ _
    (head_append_of_head _ _ _ (head_append_of_head _ _ _
      (head_append_of_head _ _ _ rfl))))

/-- C8: whenever the scan is attempted (the binding is available), the
progress line is the first printed line — present even before the
discovery outcome is known, whatever that outcome — and it occurs
nowhere else in the output. -/
theorem C8_progress_line {α : Type} [ToString α] (timeout : α)
    (fn : Option String) (disc : Except String (List Device)) :
    ∃ rest : List String, (do_scan timeout fn true disc).1
      = progressLine timeout :: rest ∧ progressLine timeout ∉ rest := by
  cases disc with
  | error e =>
    refine ⟨[], ?_, ?_⟩
    · simp [do_scan]
    · simp
  | ok devs =>
    cases h : (filterStage fn devs).isEmpty with
    | true =>
      refine ⟨["No devices found."], ?_, ?_⟩
      · simp [do_scan, h]
      · simp only [List.mem_singleton]
        exact ne_of_head _ _ (by rw [progress_head]; decide)
    | false =>
      refine ⟨((filterStage fn devs).map mkItem).map formatLine, ?_, ?_⟩
      · simp [do_scan, h]
      · intro hmem
        rw [List.mem_map] at hmem
        obtain ⟨it, _, heq⟩ := hmem
        exact ne_of_head (formatLine it) (progressLine timeout)
          (by rw [formatLine_head, progress_head]; decide) heq

/-- C1 counterexample: with zero scan results and `--json` passed, the
program prints the JSON rendering `[]` after "No devices found." — the
result-stage output is not just the single line and JSON is printed. -/
theorem C1_counterexample :
    (main' 5 none true true (Except.ok [])).1
      = [progressLine 5, "No devices found.", "[]"]
    ∧ (main' 5 none true true (Except.ok [])).1
      ≠ [progressLine 5, "No devices found."] := by
  refine ⟨rfl, ?_⟩
  decide

/-- C1 amended: when the scan (or the name filter) leaves zero records,
the human-readable result-stage output is the single line
"No devices found." and the exit code is 0; however, if `--json` was
passed, `main` still prints the JSON rendering of the empty list
(`[]`) after it. -/
theorem C1_amended (t : Nat) (fn : Option String) (j : Bool)
    (devices : List Device) (h : filterStage fn devices = []) :
    main' t fn j true (Except.ok devices)
      = ([progressLine t, "No devices found."] ++ (if j then ["[]"] else []),
         Except.ok 0) := by
  have hscan : do_scan t fn true (Except.ok devices)
      = ([progressLine t, "No devices found."], Except.ok []) := by
    simp [do_scan, h]
  unfold main'
  rw [hscan]
  cases j with
  | false => rfl
  | true => rfl

/-- Witness for C1 amended: the filter "sensor" removes the only device
"Light", and with `--json` the empty JSON array is still printed. -/
theorem C1_amended_witness :
    filterStage (some "sensor") [devLight] = []
    ∧ main' 5 (some "sensor") true true (Except.ok [devLight])
      = ([progressLine 5, "No devices found."] ++ (if true then ["[]"] else []),
         Except.ok 0) :=
  ⟨by rfl, C1_amended 5 (some "sensor") true [devLight] (by rfl)⟩

/-- C2 counterexample: an exception raised while serializing the JSON
output (here: `bytes` manufacturer data inside `details`) is not caught
by `main`'s `try` block — no "Error during scan" line is printed and
exit code 2 is not returned; the exception escapes `main`. -/
theorem C2_counterexample :
    (main' 5 none true true (Except.ok [devMfg])).2
      = Except.error "Object of type bytes is not JSON serializable"
    ∧ (main' 5 none true true (Except.ok [devMfg])).2 ≠ Except.ok 2
    ∧ "Error during scan: Object of type bytes is not JSON serializable"
        ∉ (main' 5 none true true (Except.ok [devMfg])).1 := by
  refine ⟨rfl, ?_, ?_⟩
  · intro hc
    rw [show (main' 5 none true true (Except.ok [devMfg])).2
        = Except.error "Object of type bytes is not JSON serializable" from rfl] at hc
    cases hc
  · decide

/-- C2 amended: every exception raised inside the scan-filter-format
sequence (`do_scan`) is caught exactly once at the top level of `main`,
printed as 'Error during scan: <message>' after whatever `do_scan` had
already printed, with return code 2; but an exception raised while
serializing the JSON output is outside the `try` block and escapes
`main` uncaught. -/
theorem C2_amended {α : Type} [ToString α] (timeout : α) (fn : Option String)
    (j ba : Bool) (disc : Except String (List Device)) (e : String)
    (h : (do_scan timeout fn ba disc).2 = Except.error e) :
    main' timeout fn j ba disc
      = ((do_scan timeout fn ba disc).1 ++ ["Error during scan: " ++ e],
         Except.ok 2) := by
  unfold main'
  rcases hds : do_scan timeout fn ba disc with ⟨out, res⟩
  rw [hds] at h
  cases res with
  | ok items => simp at h
  | error e2 =>
    have h2 : e2 = e := by simpa using h
    subst h2
    rfl

/-- Witness for C2 amended: the missing-dependency error is caught,
reported and turned into exit code 2. -/
theorem C2_amended_witness :
    (do_scan 5 none false (Except.ok [])).2
      = Except.error "bleak is not installed. Run: pip install bleak"
    ∧ main' 5 none true false (Except.ok [])
      = ((do_scan 5 none false (Except.ok [])).1
          ++ ["Error during scan: bleak is not installed. Run: pip install bleak"],
         Except.ok 2) :=
  ⟨rfl, C2_amended 5 none true false (Except.ok []) _ rfl⟩

/-- C6 counterexample: when JSON serialization of the results fails
(bytes in `details`), `main` returns no exit code at all — the
exception escapes; in particular the exit code is neither 2 nor 0,
refuting "2 whenever any exception is raised during scan or output". -/
theorem C6_counterexample :
    (main' 5 none true true (Except.ok [devDet])).2
      = Except.error "Object of type bytes is not JSON serializable"
    ∧ (main' 5 none true true (Except.ok [devDet])).2 ≠ Except.ok 2
    ∧ (main' 5 none true true (Except.ok [devDet])).2 ≠ Except.ok 0 := by
  refine ⟨rfl, ?_, ?_⟩ <;>
    · intro hc
      rw [show (main' 5 none true true (Except.ok [devDet])).2
          = Except.error "Object of type bytes is not JSON serializable" from rfl] at hc
      cases hc

/-- C6 amended: whenever `main` returns an exit code, that code is 0 or
2, and it is 2 exactly when an exception was raised inside `do_scan`
(scan, filtering or line formatting); an exception raised while
serializing the JSON output yields no return code at all — it escapes
`main` uncaught. -/
theorem C6_amended {α : Type} [ToString α] (timeout : α) (fn : Option String)
    (j ba : Bool) (disc : Except String (List Device)) (c : Nat)
    (h : (main' timeout fn j ba disc).2 = Except.ok c) :
    (c = 0 ∨ c = 2)
    ∧ (c = 2 ↔ ∃ e : String, (do_scan timeout fn ba disc).2 = Except.error e) := by
  unfold main' at h
  rcases hds : do_scan timeout fn ba disc with ⟨out, res⟩
  rw [hds] at h
  cases res with
  | error e =>
    have h2 : (Except.ok 2 : Except String Nat) = Except.ok c := h
    injection h2 with h3
    subst h3
    exact ⟨Or.inr rfl, fun _ => ⟨e, rfl⟩, fun _ => rfl⟩
  | ok items =>
    have hc : c = 0 := by
      cases j with
      | false =>
        have h2 : (Except.ok 0 : Except String Nat) = Except.ok c := h
        injection h2 with h3
        exact h3.symm
      | true =>
        have h2 : (match jsonDumps items with
            | Except.ok s => (out ++ [s], (Except.ok 0 : Except String Nat))
            | Except.error e2 => (out, Except.error e2)).2 = Except.ok c := h
        cases hjd : jsonDumps items with
        | ok s =>
          rw [hjd] at h2
          have h3 : (Except.ok 0 : Except String Nat) = Except.ok c := h2
          injection h3 with h4
          exact h4.symm
        | error e2 =>
          rw [hjd] at h2
          exact Except.noConfusion
            (show (Except.error e2 : Except String Nat) = Except.ok c from h2)
    subst hc
    refine ⟨Or.inl rfl, ?_, ?_⟩
    · intro h02
      exact absurd h02 (by decide)
    · rintro ⟨e, he⟩
      exact Except.noConfusion
        (show (Except.ok items : Except String (List Item)) = Except.error e from he)

/-- Witness for C6 amended: the zero-results run returns exit code 0,
which is 0-or-2 and not the error case. -/
theorem C6_amended_witness :
    (main' 5 none false true (Except.ok [])).2 = Except.ok 0
    ∧ ((0 = 0 ∨ 0 = 2)
      ∧ (0 = 2 ↔ ∃ e : String, (do_scan 5 none true (Except.ok [])).2
          = Except.error e)) :=
  ⟨rfl, C6_amended 5 none false true (Except.ok []) 0 rfl⟩
